import Mathlib

/-!
Verification of `custom_components/sensor/eastmoney.py` (a Home Assistant fund
sensor scraping an Eastmoney page) against its natural-language specification.

The Python module is shallowly embedded: the parsed HTML document is a tree
(`Html`), BeautifulSoup lookups become list searches over the descendant list,
Python `None`-returning helpers become `Option`-valued functions, and code that
can raise (`re.findall(...)[0]`, `float(None)`, `'-' + None`) is embedded in
`Except PyErr`.  `Html.text` abstracts BeautifulSoup's `.text` (the
concatenated string content of an element) as a stored field.
-/

/-- Python exceptions that the embedded code can raise. -/
inductive PyErr where
  | typeError
  | valueError
  | indexError
deriving DecidableEq, Repr

/-- An HTML element: tag name, optional `id` attribute, raw `class` attribute
string, text content (BeautifulSoup `.text`), and child elements. -/
inductive Html where
  | node : String → Option String → String → String → List Html → Html

instance : Inhabited Html := ⟨Html.node "" none "" "" []⟩

def Html.tag : Html → String
  | .node t _ _ _ _ => t

def Html.idAttr : Html → Option String
  | .node _ i _ _ _ => i

def Html.cls : Html → String
  | .node _ _ c _ _ => c

def Html.text : Html → String
  | .node _ _ _ s _ => s

def Html.children : Html → List Html
  | .node _ _ _ _ ch => ch

/-- Python `str.split(sep)` on a list of characters (splits at every
occurrence of the separator; always returns a non-empty list). -/
def pySplitList (sep : Char) : List Char → List (List Char)
  | [] => [[]]
  | c :: cs =>
    if c = sep then [] :: pySplitList sep cs
    else
      match pySplitList sep cs with
      | [] => [[c]]
      | h :: t => (c :: h) :: t

/-- Python `str.split(sep)`. -/
def pySplit (sep : Char) (s : String) : List String :=
  (pySplitList sep s.toList).map String.mk

/-- Split a character list at the first occurrence of `sep`:
`some (before, after)`, or `none` when `sep` does not occur. -/
def splitFirstAux (sep : Char) : List Char → Option (List Char × List Char)
  | [] => none
  | c :: cs =>
    if c = sep then some ([], cs)
    else
      match splitFirstAux sep cs with
      | some p => some (c :: p.1, p.2)
      | none => none

/-- The part of `s` after the first occurrence of `sep` (the "second part" of
splitting on the first separator), if any. -/
def splitFirstAfter (sep : Char) (s : String) : Option String :=
  (splitFirstAux sep s.toList).map fun p => String.mk p.2

/-- Python `s.lstrip('(').rstrip(')')`. -/
def pyStripParens (s : String) : String :=
  String.mk (((s.toList.dropWhile fun c => c = '(').reverse.dropWhile fun c => c = ')').reverse)

/-- Python `s[0:-1]` (drop the last character). -/
def pyDropLast (s : String) : String :=
  String.mk s.toList.dropLast

def isDigitCh (c : Char) : Bool := c.isDigit

def digitsVal (cs : List Char) : Nat :=
  cs.foldl (fun a c => a * 10 + (c.toNat - 48)) 0

/-- Signed mantissa of a Python `float()` literal of the restricted shape
`[+|-] digits [. digits]` (no exponent, no whitespace, no inf/nan — the only
shapes the scraped percentage strings take).  The result is the digit string
read as an integer with the sign applied; its sign (and being zero) agrees
exactly with the sign of the parsed float.  `none` models `ValueError`. -/
def pyFloatMantissa (s : String) : Option Int :=
  let cs := s.toList
  let signAndRest : Bool × List Char :=
    match cs with
    | '-' :: r => (true, r)
    | '+' :: r => (false, r)
    | _ => (false, cs)
  let neg := signAndRest.1
  let body := signAndRest.2
  let ip := body.takeWhile isDigitCh
  let rest := body.dropWhile isDigitCh
  let mag : Option Nat :=
    match rest with
    | [] => if ip.isEmpty then none else some (digitsVal ip)
    | '.' :: frac =>
      if frac.all isDigitCh && !(ip.isEmpty && frac.isEmpty) then
        some (digitsVal (ip ++ frac))
      else none
    | _ => none
  mag.map fun m => if neg then -(m : Int) else (m : Int)

/-- Embeds `float(nav_rate[0:-1]) < 0` where `nav_rate : Option String`:
`None[0:-1]` raises `TypeError`, an unparsable string raises `ValueError`. -/
def estRateNeg (o : Option String) : Except PyErr Bool :=
  match o with
  | none => Except.error PyErr.typeError
  | some s =>
    match pyFloatMantissa (pyDropLast s) with
    | none => Except.error PyErr.valueError
    | some m => Except.ok (decide (m < 0))

/-- Embeds `float(x)` for `x : Option String`: `float(None)` raises
`TypeError`, an unparsable string raises `ValueError`; the `Int` result is the
signed mantissa (sign-exact). -/
def pyFloatOfOpt (o : Option String) : Except PyErr Int :=
  match o with
  | none => Except.error PyErr.typeError
  | some s =>
    match pyFloatMantissa s with
    | none => Except.error PyErr.valueError
    | some m => Except.ok m

/-- Match the regex `\d{1,2}` greedily at the head of the list (the day part
of `PAT_DATE`); returns the matched characters. -/
def matchDay : List Char → Option (List Char)
  | a :: b :: _ => if isDigitCh a then (if isDigitCh b then some [a, b] else some [a]) else none
  | [a] => if isDigitCh a then some [a] else none
  | [] => none

/-- Match `\d{1,2}-\d{1,2}` (month, dash, day) at the head of the list, with
the regex's greedy-then-backtrack behaviour for the month width. -/
def matchMonthDay : List Char → Option (List Char)
  | a :: b :: rest =>
    if isDigitCh a then
      if isDigitCh b then
        match rest with
        | '-' :: r2 => (matchDay r2).map fun day => [a, b, '-'] ++ day
        | _ => none
      else if b = '-' then (matchDay rest).map fun day => [a, '-'] ++ day
      else none
    else none
  | _ => none

/-- Match `PAT_DATE = \d{4}-\d{1,2}-\d{1,2}` at the head of the list. -/
def matchDateAt : List Char → Option (List Char)
  | y1 :: y2 :: y3 :: y4 :: '-' :: rest =>
    if isDigitCh y1 && isDigitCh y2 && isDigitCh y3 && isDigitCh y4 then
      (matchMonthDay rest).map fun md => [y1, y2, y3, y4, '-'] ++ md
    else none
  | _ => none

/-- The first (leftmost) match of `PAT_DATE` in the text, i.e. the value of
`re.findall(PAT_DATE, s)[0]` when it exists; `none` exactly when `findall`
returns the empty list and the `[0]` subscript raises `IndexError`. -/
def pyFindFirstDate : List Char → Option String
  | [] => none
  | c :: cs =>
    match matchDateAt (c :: cs) with
    | some m => some (String.mk m)
    | none => pyFindFirstDate cs

mutual

/-- All elements of the subtree rooted at `h`, in document (preorder) order,
including `h` itself. -/
def Html.subtree : Html → List Html
  | .node t i c s ch => Html.node t i c s ch :: subtreeListHtml ch

/-- Preorder traversal of a forest. -/
def subtreeListHtml : List Html → List Html
  | [] => []
  | h :: hs => h.subtree ++ subtreeListHtml hs

end

/-- All proper descendants of an element, in document order (what
BeautifulSoup's `find`/`find_all` search). -/
def Html.descendants (h : Html) : List Html :=
  subtreeListHtml h.children

/-- BeautifulSoup's matching of a `class_` search string against an element's
class attribute: a single-word query matches any one of the element's classes,
a multi-word query matches the full attribute string. -/
def classQueryMatches (query cls : String) : Bool :=
  (pySplit ' ' cls).contains query || cls == query

/-- `element.find(tag, class_=query)`. -/
def findTagClass (tag query : String) (h : Html) : Option Html :=
  h.descendants.find? fun n => n.tag == tag && classQueryMatches query n.cls

/-- `element.find(tag, id=query)`. -/
def findTagId (tag query : String) (h : Html) : Option Html :=
  h.descendants.find? fun n => n.tag == tag && n.idAttr == some query

/-- `element.find(tag)`. -/
def findTag (tag : String) (h : Html) : Option Html :=
  h.descendants.find? fun n => n.tag == tag

/-- `element.find_all(tag)`. -/
def findAllTag (tag : String) (h : Html) : List Html :=
  h.descendants.filter fun n => n.tag == tag

/-- The dictionary produced by `EastmoneyData._get_estnav` (estimate region).
Fields mirror the Python dict keys; values are `Option String` since the dict
can hold `None`. -/
structure EstNav where
  enav_time : Option String
  enav : Option String
  enav_growth : Option String
  enav_rate : Option String
  rct_1month : Option String
  rct_1year : Option String
deriving DecidableEq, Repr

/-- The dictionary produced by `EastmoneyData._get_nav` (settled region). -/
structure Nav where
  nav_date : Option String
  nav : Option String
  nav_rate : Option String
  rct_3month : Option String
  rct_3year : Option String
deriving DecidableEq, Repr

/-- The dictionary produced by `EastmoneyData._analyze` and stored in
`EastmoneyData.data` (the Snapshot). -/
structure FundDict where
  est_nav : EstNav
  nav : Nav
  last_update : Option String
deriving DecidableEq, Repr

/-- CSS marker for the settled headline value, positive variant
(`'ui-font-large ui-color-green ui-num'`). -/
def largeGreen : String := "ui-font-large ui-color-green ui-num"

/-- CSS marker for the settled headline value, negative variant. -/
def largeRed : String := "ui-font-large ui-color-red ui-num"

/-- CSS marker for the middle-size figures, positive variant
(`'ui-font-middle ui-color-green ui-num'`). -/
def midGreen : String := "ui-font-middle ui-color-green ui-num"

/-- CSS marker for the middle-size figures, negative variant. -/
def midRed : String := "ui-font-middle ui-color-red ui-num"

/-- `estnav_data.find_all('dd')` in `_get_estnav`. -/
def estDds (d : Html) : List Html := findAllTag "dd" d

/-- `dds[0].find('span', id='gz_gsz').text` (estimate headline value). -/
def estNavRaw (d : Html) : Option String :=
  (findTagId "span" "gz_gsz" (estDds d)[0]!).map Html.text

/-- `dds[0].find('span', id='gz_gszze').text` (estimate change, unsigned). -/
def estGrowthRaw (d : Html) : Option String :=
  (findTagId "span" "gz_gszze" (estDds d)[0]!).map Html.text

/-- `dds[0].find('span', id='gz_gszzl').text` (estimate change rate). -/
def estRateRaw (d : Html) : Option String :=
  (findTagId "span" "gz_gszzl" (estDds d)[0]!).map Html.text

/-- Green-then-red lookup for the estimate trailing-1-month figure. -/
def estM1Raw (d : Html) : Option String :=
  ((findTagClass "span" midGreen (estDds d)[1]!).orElse fun _ =>
    findTagClass "span" midRed (estDds d)[1]!).map Html.text

/-- Green-then-red lookup for the estimate trailing-1-year figure. -/
def estY1Raw (d : Html) : Option String :=
  ((findTagClass "span" midGreen (estDds d)[2]!).orElse fun _ =>
    findTagClass "span" midRed (estDds d)[2]!).map Html.text

/-- `estnav_data.find('span', id='gz_gztime')` stripped of the surrounding
parentheses (estimate time). -/
def estTimeRaw (d : Html) : Option String :=
  (findTagId "span" "gz_gztime" d).map fun n => pyStripParens n.text

/-- `EastmoneyData._get_estnav`: extract the estimate-region dict.  Returns
`ok none` where the Python returns `None`, and `error _` where the Python
raises (`float` of a missing rate, `'-' + None` on a missing change). -/
def getEstnav (d : Html) : Except PyErr (Option EstNav) :=
  if (estDds d).length != 3 then Except.ok none
  else
    match estNavRaw d, estTimeRaw d with
    | some nv, some tm =>
      match estRateNeg (estRateRaw d) with
      | Except.error e => Except.error e
      | Except.ok true =>
        match estGrowthRaw d with
        | some g =>
          Except.ok (some ⟨some tm, some nv, some ("-" ++ g), estRateRaw d, estM1Raw d, estY1Raw d⟩)
        | none => Except.error PyErr.typeError
      | Except.ok false =>
        Except.ok (some ⟨some tm, some nv, estGrowthRaw d, estRateRaw d, estM1Raw d, estY1Raw d⟩)
    | _, _ => Except.ok none

/-- `nav_data.find_all('dd')` in `_get_nav`. -/
def navDds (d : Html) : List Html := findAllTag "dd" d

/-- Green-then-red lookup for the settled headline value. -/
def navValRaw (d : Html) : Option String :=
  ((findTagClass "span" largeGreen (navDds d)[0]!).orElse fun _ =>
    findTagClass "span" largeRed (navDds d)[0]!).map Html.text

/-- Green-then-red lookup for the settled change rate. -/
def navRateRaw (d : Html) : Option String :=
  ((findTagClass "span" midGreen (navDds d)[0]!).orElse fun _ =>
    findTagClass "span" midRed (navDds d)[0]!).map Html.text

/-- `dds[1].find('span', class_=midGreen)` — green marker only. -/
def navM3Raw (d : Html) : Option String :=
  (findTagClass "span" midGreen (navDds d)[1]!).map Html.text

/-- `dds[2].find('span', class_=midRed)` — red marker only. -/
def navY3Raw (d : Html) : Option String :=
  (findTagClass "span" midRed (navDds d)[2]!).map Html.text

/-- `EastmoneyData._get_nav`: extract the settled-region dict.  The date is
`re.findall(PAT_DATE, date.text)[0]`, which raises `IndexError` when the text
contains no date match. -/
def getNav (d : Html) : Except PyErr (Option Nav) :=
  if (navDds d).length != 3 then Except.ok none
  else
    match findTag "dt" d with
    | some de =>
      match pyFindFirstDate de.text.toList with
      | some m =>
        match navValRaw d with
        | some nv => Except.ok (some ⟨some m, some nv, navRateRaw d, navM3Raw d, navY3Raw d⟩)
        | none => Except.ok none
      | none => Except.error PyErr.indexError
    | none => Except.ok none

/-- The text of the inner `div` of the `fundDetail-tit` region
(`tit.text` in `_get_fund_tit`). -/
def getFundTitText (soup : Html) : Option String :=
  match findTagClass "div" "fundDetail-tit" soup with
  | none => none
  | some fund_tit =>
    match findTag "div" fund_tit with
    | none => none
    | some tit => some tit.text

/-- `EastmoneyData._get_fund_tit`: the title text split on `'('`. -/
def getFundTit (soup : Html) : Option (List String) :=
  (getFundTitText soup).map (pySplit '(')

/-- `EastmoneyData._analyze`: locate the regions and assemble the Snapshot
dict; returns `ok none` where the Python returns `None`. -/
def analyze (soup : Html) : Except PyErr (Option FundDict) :=
  match findTagClass "div" "fundInfoItem" soup with
  | none => Except.ok none
  | some fii =>
    match findTagClass "div" "dataOfFund" fii with
    | none => Except.ok none
    | some fd =>
      match findTagClass "dl" "dataItem01" fd, findTagClass "dl" "dataItem02" fd with
      | some d1, some d2 =>
        match getEstnav d1 with
        | Except.error e => Except.error e
        | Except.ok estOpt =>
          match getNav d2 with
          | Except.error e => Except.error e
          | Except.ok navOpt =>
            match estOpt, navOpt with
            | some e, some n => Except.ok (some ⟨e, n, e.enav_time⟩)
            | _, _ => Except.ok none
      | _, _ => Except.ok none

/-- Result of the `requests.get` call: a parsed document, or a transport
failure that the `except` clause in `_update` catches. -/
inductive FetchResult where
  | ok : Html → FetchResult
  | err : FetchResult

/-- `EastmoneyData._update` acting on the stored data: on a caught transport
error the data is returned unchanged; when the title check passes, the data is
replaced by whatever `_analyze` returns (`self.data = self._analyze(soup)`);
otherwise ("Invalid fund id" log) the data is returned unchanged. -/
def updateRaw (fundId : String) (data : Option FundDict) (fr : FetchResult) :
    Except PyErr (Option FundDict) :=
  match fr with
  | FetchResult.err => Except.ok data
  | FetchResult.ok doc =>
    match getFundTit doc with
    | some tit =>
      if tit.length == 2 && tit[1]! == fundId then analyze doc
      else Except.ok data
    | none => Except.ok data

/-- The condition under which `_update` calls `_analyze`:
`tit is not None and len(tit) == 2 and tit[1] == self.fund_id`. -/
def titlePasses (fundId : String) (soup : Html) : Bool :=
  match getFundTit soup with
  | some tit => tit.length == 2 && tit[1]! == fundId
  | none => false

/-- `EastmoneyData`: resource id, stored Snapshot, and the throttle state
(configured minimum interval and last-invocation timestamp). -/
structure EastmoneyData where
  fund_id : String
  data : Option FundDict
  interval : Nat
  lastCall : Option Nat
deriving DecidableEq, Repr

/-- Modelled from the spec: the throttle wrapper (`homeassistant.util.Throttle`
applied in `EastmoneyData.__init__`) is host-framework code not present under
src/.  Per the spec, `update()` returns immediately, performing no network
activity and leaving the Snapshot unaltered, when the time since the last
invocation is below the configured minimum interval; otherwise it runs the
fetch pipeline (`updateRaw`) and unconditionally updates the last-fetch
timestamp regardless of outcome.  The `Bool` result records whether a network
fetch was performed; the `Option PyErr` records an exception escaping the
pipeline. -/
def EastmoneyData.update (st : EastmoneyData) (now : Nat) (fr : FetchResult) :
    EastmoneyData × Bool × Option PyErr :=
  let throttled : Bool :=
    match st.lastCall with
    | some t => decide (now - t < st.interval)
    | none => false
  if throttled then (st, false, none)
  else
    match updateRaw st.fund_id st.data fr with
    | Except.ok d => ({ st with data := d, lastCall := some now }, true, none)
    | Except.error e => ({ st with lastCall := some now }, true, some e)

/-- `EastmoneySensor` display state: `self._state` and `self._trend`. -/
structure SensorState where
  stateVal : Option String
  trend : Int
deriving DecidableEq, Repr

/-- `EastmoneySensor.__init__`: `self._state = None`, `self._trend = -1`. -/
def initSensor : SensorState := ⟨none, -1⟩

/-- `EastmoneySensor.icon`. -/
def icon (s : SensorState) : String :=
  if s.trend == 1 then "mdi:trending-up"
  else if s.trend == -1 then "mdi:trending-down"
  else "mdi:trending-neutral"

/-- The body of `EastmoneySensor.update` after the fetcher call, acting on the
fetcher's (already updated) data: when data is absent, return; otherwise set
`_state` and then compute `float(est_nav['enav_growth'])` — which raises when
the stored change is `None` (the `_state` mutation has already happened) —
and set `_trend` from its sign. -/
def sensorUpdateWith (data : Option FundDict) (s : SensorState) :
    SensorState × Option PyErr :=
  match data with
  | none => (s, none)
  | some d =>
    let s1 : SensorState := { s with stateVal := d.est_nav.enav }
    match pyFloatOfOpt d.est_nav.enav_growth with
    | Except.error e => (s1, some e)
    | Except.ok g =>
      ({ s1 with trend := if 0 < g then 1 else if g < 0 then -1 else 0 }, none)

/-- A registered sensor entity (`EastmoneySensor(fund_data, name)`). -/
structure SensorEntry where
  fund_data : EastmoneyData
  client_name : String
deriving DecidableEq, Repr

/-- `setup_platform`: build the fetcher, run one initial `update()`, abort
(return `ok none`, the Python `return False`) when `fund_data.data is None`,
otherwise register exactly one sensor via `add_devices`. -/
def setup_platform (fundId nm : String) (interval now : Nat) (fr : FetchResult) :
    Except PyErr (Option (List SensorEntry)) :=
  let st0 : EastmoneyData :=
    { fund_id := fundId, data := none, interval := interval, lastCall := none }
  match st0.update now fr with
  | (_, _, some e) => Except.error e
  | (st1, _, none) =>
    if st1.data.isNone then Except.ok none
    else Except.ok (some [{ fund_data := st1, client_name := nm }])

/-- The `fundDetail-tit` region whose inner div text is `"ABC Fund(000001"`,
so the title split is `["ABC Fund", "000001"]`. -/
def titDiv : Html :=
  Html.node "div" none "fundDetail-tit" "" [Html.node "div" none "" "ABC Fund(000001" []]

/-- A page whose title/identity check passes for fund id `000001` but which
has no `fundInfoItem` region, so `_analyze` fails structurally. -/
def doc1 : Html := Html.node "[document]" none "" "" [titDiv]

/-- A complete estimate region: value `1.234`, change `5`, rate `-1.2%`. -/
def doc3est : Html :=
  Html.node "dl" none "dataItem01" "" [
    Html.node "span" (some "gz_gztime") "" "(2023-05-09 15:00)" [],
    Html.node "dd" none "" "" [
      Html.node "span" (some "gz_gsz") "" "1.234" [],
      Html.node "span" (some "gz_gszze") "" "5" [],
      Html.node "span" (some "gz_gszzl") "" "-1.2%" []],
    Html.node "dd" none "" "" [Html.node "span" none midGreen "1.5%" []],
    Html.node "dd" none "" "" [Html.node "span" none midRed "20%" []]]

/-- Same estimate region but with rate `+1.2%`. -/
def doc3estP : Html :=
  Html.node "dl" none "dataItem01" "" [
    Html.node "span" (some "gz_gztime") "" "(2023-05-09 15:00)" [],
    Html.node "dd" none "" "" [
      Html.node "span" (some "gz_gsz") "" "1.234" [],
      Html.node "span" (some "gz_gszze") "" "5" [],
      Html.node "span" (some "gz_gszzl") "" "+1.2%" []],
    Html.node "dd" none "" "" [Html.node "span" none midGreen "1.5%" []],
    Html.node "dd" none "" "" [Html.node "span" none midRed "20%" []]]

/-- A complete settled region: date `2023-5-9`, value `1.200`, rate `0.5%`. -/
def doc3nav : Html :=
  Html.node "dl" none "dataItem02" "" [
    Html.node "dt" none "" "Unit NAV (2023-5-9)" [],
    Html.node "dd" none "" "" [
      Html.node "span" none largeGreen "1.200" [],
      Html.node "span" none midGreen "0.5%" []],
    Html.node "dd" none "" "" [Html.node "span" none midGreen "3%" []],
    Html.node "dd" none "" "" [Html.node "span" none midRed "30%" []]]

/-- Expected estimate dict for `doc3est` (change sign-corrected to `-5`). -/
def est3 : EstNav :=
  ⟨some "2023-05-09 15:00", some "1.234", some "-5", some "-1.2%", some "1.5%", some "20%"⟩

/-- Expected estimate dict for `doc3estP` (change left as `5`). -/
def est3P : EstNav :=
  ⟨some "2023-05-09 15:00", some "1.234", some "5", some "+1.2%", some "1.5%", some "20%"⟩

/-- Expected settled dict for `doc3nav`. -/
def nav3 : Nav := ⟨some "2023-5-9", some "1.200", some "0.5%", some "3%", some "30%"⟩

/-- A fully successful page (estimate + settled regions complete). -/
def doc8 : Html :=
  Html.node "[document]" none "" "" [
    Html.node "div" none "fundInfoItem" "" [
      Html.node "div" none "dataOfFund" "" [doc3est, doc3nav]]]

/-- Expected Snapshot for `doc8`. -/
def snap8 : FundDict := ⟨est3, nav3, some "2023-05-09 15:00"⟩

/-- An empty `dd` element. -/
def ddEmpty : Html := Html.node "dd" none "" "" []

/-- A `dt` element whose text contains no `YYYY-M-D` date. -/
def doc2dt : Html := Html.node "dt" none "" "no settlement date here" []

/-- A settled region whose `dt` text has no date match (three `dd`s, so the
count guard passes and the date lookup is reached). -/
def doc2nav : Html :=
  Html.node "dl" none "dataItem02" "" [doc2dt, ddEmpty, ddEmpty, ddEmpty]

/-- A page passing the title check whose settled region triggers the
`re.findall(...)[0]` subscript on an empty match list. -/
def doc2 : Html :=
  Html.node "[document]" none "" "" [titDiv,
    Html.node "div" none "fundInfoItem" "" [
      Html.node "div" none "dataOfFund" "" [
        Html.node "dl" none "dataItem01" "" [], doc2nav]]]

/-- A settled region whose third sub-item carries the GREEN (positive) marker
with figure `7.77%` — the code consults only the red marker there. -/
def doc4nav : Html :=
  Html.node "dl" none "dataItem02" "" [
    Html.node "dt" none "" "nav 2023-5-9" [],
    Html.node "dd" none "" "" [Html.node "span" none largeGreen "1.200" []],
    Html.node "dd" none "" "" [],
    Html.node "dd" none "" "" [Html.node "span" none midGreen "7.77%" []]]

/-- Settled dict the code extracts from `doc4nav`: `rct_3year` is unset even
though the green-marked figure is present. -/
def nav4 : Nav := ⟨some "2023-5-9", some "1.200", none, none, none⟩

/-- An estimate region whose headline spans carry NO marker classes at all —
they are found by element id alone. -/
def doc4est : Html :=
  Html.node "dl" none "dataItem01" "" [
    Html.node "span" (some "gz_gztime") "" "(2023-05-09 15:00)" [],
    Html.node "dd" none "" "" [
      Html.node "span" (some "gz_gsz") "" "1.111" [],
      Html.node "span" (some "gz_gszze") "" "5" [],
      Html.node "span" (some "gz_gszzl") "" "1.2%" []],
    Html.node "dd" none "" "" [],
    Html.node "dd" none "" "" []]

/-- Estimate dict the code extracts from `doc4est`. -/
def est4 : EstNav := ⟨some "2023-05-09 15:00", some "1.111", some "5", some "1.2%", none, none⟩

/-- An estimate region with headline value, time and non-negative rate
present but NO change (`gz_gszze`) element. -/
def doc10est : Html :=
  Html.node "dl" none "dataItem01" "" [
    Html.node "span" (some "gz_gztime") "" "(2023-05-09 15:00)" [],
    Html.node "dd" none "" "" [
      Html.node "span" (some "gz_gsz") "" "1.234" [],
      Html.node "span" (some "gz_gszzl") "" "1.2%" []],
    Html.node "dd" none "" "" [],
    Html.node "dd" none "" "" []]

/-- A page whose estimate region lacks the change element (rate
non-negative) and whose settled region is complete. -/
def doc10 : Html :=
  Html.node "[document]" none "" "" [
    Html.node "div" none "fundInfoItem" "" [
      Html.node "div" none "dataOfFund" "" [doc10est, doc3nav]]]

/-- Estimate dict extracted from `doc10est`: change is unset. -/
def est10 : EstNav := ⟨some "2023-05-09 15:00", some "1.234", none, some "1.2%", none, none⟩

/-- Snapshot extracted from `doc10`. -/
def snap10 : FundDict := ⟨est10, nav3, some "2023-05-09 15:00"⟩

example : getEstnav doc3est = Except.ok (some est3) := rfl
example : getEstnav doc3estP = Except.ok (some est3P) := rfl
example : getEstnav doc4est = Except.ok (some est4) := rfl
example : getEstnav doc10est = Except.ok (some est10) := rfl
example : getNav doc3nav = Except.ok (some nav3) := rfl
example : getNav doc4nav = Except.ok (some nav4) := rfl
example : getNav doc2nav = Except.error PyErr.indexError := rfl
example : analyze doc8 = Except.ok (some snap8) := rfl
example : analyze doc10 = Except.ok (some snap10) := rfl
example : analyze doc1 = Except.ok none := rfl
example : analyze doc2 = Except.error PyErr.indexError := rfl
example : titlePasses "000001" doc1 = true := rfl
example : titlePasses "000002" doc1 = false := rfl
example : updateRaw "000001" (some snap8) (FetchResult.ok doc1) = Except.ok none := rfl
example : updateRaw "000001" (some snap8) (FetchResult.ok doc2) = Except.error PyErr.indexError := rfl
example : sensorUpdateWith (some snap10) initSensor = (⟨some "1.234", -1⟩, some PyErr.typeError) := rfl
example : pyFindFirstDate "Unit NAV (2023-5-9)".toList = some "2023-5-9" := rfl
example : estRateNeg (some "-1.2%") = Except.ok true := rfl
example : estRateNeg (some "+1.2%") = Except.ok false := rfl

theorem getEstnav_inv (d : Html) (e : EstNav) (h : getEstnav d = Except.ok (some e)) :
    e.enav = estNavRaw d ∧ e.enav_time = estTimeRaw d ∧
    e.enav ≠ none ∧ e.enav_time ≠ none ∧
    e.enav_rate = estRateRaw d ∧ e.rct_1month = estM1Raw d ∧ e.rct_1year = estY1Raw d ∧
    ((estRateNeg (estRateRaw d) = Except.ok true ∧
        ∃ g, estGrowthRaw d = some g ∧ e.enav_growth = some ("-" ++ g)) ∨
     (estRateNeg (estRateRaw d) = Except.ok false ∧ e.enav_growth = estGrowthRaw d)) := by
  unfold getEstnav at h
  split at h
  · simp at h
  · split at h
    · rename_i nv tm hnv htm
      split at h
      · simp at h
      · rename_i hneg
        split at h
        · rename_i g hg
          simp only [Except.ok.injEq, Option.some.injEq] at h
          subst h
          exact ⟨hnv.symm, htm.symm, by simp, by simp, rfl, rfl, rfl, Or.inl ⟨hneg, g, hg, rfl⟩⟩
        · simp at h
      · rename_i hneg
        simp only [Except.ok.injEq, Option.some.injEq] at h
        subst h
        exact ⟨hnv.symm, htm.symm, by simp, by simp, rfl, rfl, rfl, Or.inr ⟨hneg, rfl⟩⟩
    · simp at h

theorem getNav_inv (d : Html) (n : Nav) (h : getNav d = Except.ok (some n)) :
    n.nav = navValRaw d ∧ n.nav ≠ none ∧ n.nav_date ≠ none ∧
    n.nav_rate = navRateRaw d ∧ n.rct_3month = navM3Raw d ∧ n.rct_3year = navY3Raw d ∧
    (∃ de m, findTag "dt" d = some de ∧ pyFindFirstDate de.text.toList = some m ∧
      n.nav_date = some m) := by
  unfold getNav at h
  split at h
  · simp at h
  · split at h
    · rename_i de hde
      split at h
      · rename_i m hm
        split at h
        · rename_i nv hnv
          simp only [Except.ok.injEq, Option.some.injEq] at h
          subst h
          exact ⟨hnv.symm, by simp, by simp, rfl, rfl, rfl, de, m, hde, hm, rfl⟩
        · simp at h
      · simp at h
    · simp at h

theorem analyze_inv (soup : Html) (fd : FundDict) (h : analyze soup = Except.ok (some fd)) :
    (∃ d1, getEstnav d1 = Except.ok (some fd.est_nav)) ∧
    (∃ d2, getNav d2 = Except.ok (some fd.nav)) ∧
    fd.last_update = fd.est_nav.enav_time := by
  unfold analyze at h
  split at h
  · simp at h
  · split at h
    · simp at h
    · split at h
      · rename_i d1 d2 hd1 hd2
        split at h
        · simp at h
        · rename_i estOpt hest
          split at h
          · simp at h
          · rename_i navOpt hnav
            split at h
            · rename_i e' n'
              simp only [Except.ok.injEq, Option.some.injEq] at h
              subst h
              exact ⟨⟨d1, hest⟩, ⟨d2, hnav⟩, rfl⟩
            · simp at h
      · simp at h

theorem pySplitList_ne_nil (sep : Char) : ∀ cs, pySplitList sep cs ≠ [] := by
  intro cs
  induction cs with
  | nil => simp [pySplitList]
  | cons c cs ih =>
    by_cases hc : c = sep
    · simp [pySplitList, hc]
    · simp only [pySplitList, if_neg hc]
      split
      · simp
      · simp

theorem pySplitList_singleton (sep : Char) :
    ∀ (cs x : List Char), pySplitList sep cs = [x] → x = cs := by
  intro cs
  induction cs with
  | nil =>
    intro x h
    simp [pySplitList] at h
    exact h
  | cons c cs ih =>
    intro x h
    by_cases hc : c = sep
    · simp only [pySplitList, if_pos hc] at h
      injection h with h1 h2
      exact absurd h2 (pySplitList_ne_nil sep cs)
    · simp only [pySplitList, if_neg hc] at h
      split at h
      · rename_i heq
        exact absurd heq (pySplitList_ne_nil sep cs)
      · rename_i hd tl heq
        injection h with h1 h2
        subst h2
        have hhd := ih hd heq
        subst hhd
        exact h1.symm

theorem pySplitList_pair (sep : Char) :
    ∀ (cs a b : List Char), pySplitList sep cs = [a, b] →
      splitFirstAux sep cs = some (a, b) := by
  intro cs
  induction cs with
  | nil =>
    intro a b h
    simp [pySplitList] at h
  | cons c cs ih =>
    intro a b h
    by_cases hc : c = sep
    · simp only [pySplitList, if_pos hc] at h
      injection h with h1 h2
      subst h1
      have hb := pySplitList_singleton sep cs b h2
      subst hb
      simp [splitFirstAux, if_pos hc]
    · simp only [pySplitList, if_neg hc] at h
      split at h
      · simp at h
      · rename_i hd tl heq
        injection h with h1 h2
        subst h1
        rw [h2] at heq
        have := ih hd b heq
        simp [splitFirstAux, if_neg hc, this]

/-- When the `_update` title check passes, the title text's part after the
first `'('` is exactly the configured fund id. -/
theorem titlePasses_spec (fid : String) (doc : Html) (hp : titlePasses fid doc = true) :
    ∃ t, getFundTitText doc = some t ∧ splitFirstAfter '(' t = some fid := by
  unfold titlePasses at hp
  cases hT : getFundTit doc with
  | none => rw [hT] at hp; simp at hp
  | some l =>
    rw [hT] at hp
    rw [Bool.and_eq_true, beq_iff_eq, beq_iff_eq] at hp
    obtain ⟨hlen, hsnd⟩ := hp
    unfold getFundTit at hT
    cases ht : getFundTitText doc with
    | none => rw [ht] at hT; simp at hT
    | some t =>
      rw [ht] at hT
      simp only [Option.map_some'] at hT
      injection hT with hT
      refine ⟨t, rfl, ?_⟩
      unfold pySplit at hT
      cases hsl : pySplitList '(' t.toList with
      | nil => exact absurd hsl (pySplitList_ne_nil '(' t.toList)
      | cons x0 rest =>
        cases rest with
        | nil => rw [hsl] at hT; rw [← hT] at hlen; simp at hlen
        | cons x1 rest2 =>
          cases rest2 with
          | nil =>
            have hfirst := pySplitList_pair '(' t.toList x0 x1 hsl
            unfold splitFirstAfter
            rw [hfirst]
            rw [hsl] at hT
            rw [← hT] at hsnd
            simpa using hsnd
          | cons x2 rest3 => rw [hsl] at hT; rw [← hT] at hlen; simp at hlen

/-- When the title check fails, `_update` leaves the stored data unchanged. -/
theorem updateRaw_not_pass (fid : String) (data : Option FundDict) (doc : Html)
    (hp : titlePasses fid doc = false) :
    updateRaw fid data (FetchResult.ok doc) = Except.ok data := by
  unfold titlePasses at hp
  cases hT : getFundTit doc with
  | none => simp [updateRaw, hT]
  | some l =>
    rw [hT] at hp
    have hp' : (l.length == 2 && l[1]! == fid) = false := hp
    simp [updateRaw, hT, hp']

/-- When the title check passes, `_update` replaces the stored data with
whatever `_analyze` produces (`self.data = self._analyze(soup)`). -/
theorem updateRaw_pass (fid : String) (data : Option FundDict) (doc : Html)
    (hp : titlePasses fid doc = true) :
    updateRaw fid data (FetchResult.ok doc) = analyze doc := by
  unfold titlePasses at hp
  cases hT : getFundTit doc with
  | none => rw [hT] at hp; simp at hp
  | some l =>
    rw [hT] at hp
    have hp' : (l.length == 2 && l[1]! == fid) = true := hp
    simp [updateRaw, hT, hp']

/-- C1 counterexample: starting from a stored Snapshot, a poll whose document
passes the title/identity check but lacks the `fundInfoItem` region (a
structural failure past the title check) CLEARS the stored Snapshot to null,
contradicting the claim that a failed poll never clears or replaces it. -/
theorem C1_counterexample :
    updateRaw "000001" (some snap8) (FetchResult.ok doc1) = Except.ok none ∧
    some snap8 ≠ (none : Option FundDict) :=
  ⟨rfl, by simp⟩

/-- C1 (amended): on a transport error or a failed title check the stored
Snapshot is left unchanged, but once the poll runs past the title/identity
check the Snapshot is unconditionally replaced by the analysis result — so a
structural failure past the title check replaces it with null rather than
leaving it untouched. -/
theorem C1_amended (fid : String) (data : Option FundDict) (doc : Html) :
    updateRaw fid data FetchResult.err = Except.ok data ∧
    (titlePasses fid doc = false →
      updateRaw fid data (FetchResult.ok doc) = Except.ok data) ∧
    (titlePasses fid doc = true →
      updateRaw fid data (FetchResult.ok doc) = analyze doc) :=
  ⟨rfl, updateRaw_not_pass fid data doc, updateRaw_pass fid data doc⟩

/-- Witness for C1_amended: on `doc1` the title check passes, so the update
result is exactly the analysis result. -/
theorem C1_amended_witness :
    updateRaw "000001" (some snap8) (FetchResult.ok doc1) = analyze doc1 :=
  (C1_amended "000001" (some snap8) doc1).2.2 rfl

/-- C2 counterexample: a document that passes the title check and whose
settled region's `dt` text contains no `YYYY-M-D` match makes `update()`
raise an uncaught `IndexError` (from `re.findall(PAT_DATE, date.text)[0]`),
contradicting the claim that no exception propagates. -/
theorem C2_counterexample :
    updateRaw "000001" (some snap8) (FetchResult.ok doc2) = Except.error PyErr.indexError :=
  rfl

/-- C2 (amended): caught transport errors propagate no exception and leave
the data unchanged, but a date-pattern mismatch in the settled region is NOT
treated as a logged structural error: whenever the `dd` count guard passes
and the `dt` element is present with no date match in its text, `_get_nav`
raises an uncaught `IndexError`. -/
theorem C2_amended (fid : String) (data : Option FundDict) (nd dt : Html)
    (h1 : findTag "dt" nd = some dt)
    (h2 : pyFindFirstDate dt.text.toList = none)
    (h3 : (navDds nd).length = 3) :
    updateRaw fid data FetchResult.err = Except.ok data ∧
    getNav nd = Except.error PyErr.indexError := by
  refine ⟨rfl, ?_⟩
  simp only [String.toList] at h2
  simp [getNav, h1, h2, h3]

/-- Witness for C2_amended at the concrete settled region `doc2nav`. -/
theorem C2_witness : getNav doc2nav = Except.error PyErr.indexError :=
  (C2_amended "000001" (some snap8) doc2nav doc2dt rfl rfl rfl).2

/-- C3: for every successful estimate extraction, the stored change equals
the raw (unsigned) change text prefixed with a minus sign exactly when the
co-located rate parses negative, and unchanged when it parses non-negative
(applied once, never twice); the settled region's value and rate are stored
verbatim from their selected elements, with no sign correction. -/
theorem C3 (d sd : Html) (e : EstNav) (n : Nav) (g : String)
    (he : getEstnav d = Except.ok (some e))
    (hg : estGrowthRaw d = some g)
    (hn : getNav sd = Except.ok (some n)) :
    e.enav_rate = estRateRaw d ∧
    (estRateNeg (estRateRaw d) = Except.ok true → e.enav_growth = some ("-" ++ g)) ∧
    (estRateNeg (estRateRaw d) = Except.ok false → e.enav_growth = some g) ∧
    n.nav = navValRaw sd ∧ n.nav_rate = navRateRaw sd := by
  obtain ⟨_, _, _, _, hrate, _, _, hcase⟩ := getEstnav_inv d e he
  obtain ⟨hnv, _, _, hnr, _, _, _⟩ := getNav_inv sd n hn
  refine ⟨hrate, ?_, ?_, hnv, hnr⟩
  · intro htrue
    rcases hcase with ⟨_, g', hg', hgr⟩ | ⟨hfalse, _⟩
    · rw [hg] at hg'
      injection hg' with e1
      rw [← e1] at hgr
      exact hgr
    · rw [hfalse] at htrue
      simp at htrue
  · intro hfalse
    rcases hcase with ⟨htrue, _⟩ | ⟨_, hgrow⟩
    · rw [htrue] at hfalse
      simp at hfalse
    · rw [hgrow, hg]

/-- Witness for C3: change magnitude `5` with rate `-1.2%` is stored as
`-5`. -/
theorem C3_witness : est3.enav_growth = some ("-" ++ "5") :=
  (C3 doc3est doc3nav est3 nav3 "5" rfl rfl rfl).2.1 rfl

/-- C4 counterexample: the settled region's trailing 3-year figure is looked
up ONLY under the red (negative) marker — a green-marked figure `7.77%` in
the third sub-item is present yet the field stays unset, so the extraction is
not an either-or lookup over both markers; and the estimate headline value is
selected by element id with no marker class at all. -/
theorem C4_counterexample :
    getNav doc4nav = Except.ok (some nav4) ∧
    nav4.rct_3year = none ∧
    (((findTagClass "span" midGreen (navDds doc4nav)[2]!).orElse fun _ =>
        findTagClass "span" midRed (navDds doc4nav)[2]!).map Html.text = some "7.77%") ∧
    getEstnav doc4est = Except.ok (some est4) ∧
    est4.enav = some "1.111" ∧
    findTagClass "span" largeGreen (estDds doc4est)[0]! = none ∧
    findTagClass "span" largeRed (estDds doc4est)[0]! = none :=
  ⟨rfl, rfl, rfl, rfl, rfl, rfl, rfl⟩

/-- C4 (amended): the estimate region's headline value and change rate are
selected by fixed element ids (single lookup, no visual markers); the
estimate trailing figures and the settled value and rate use a
green-marker-then-red-marker fallback pair; the settled trailing 3-month
figure consults only the green marker and the trailing 3-year figure only the
red marker; absence of the consulted marker(s) leaves the field unset. -/
theorem C4_amended (d sd : Html) (e : EstNav) (n : Nav)
    (he : getEstnav d = Except.ok (some e))
    (hn : getNav sd = Except.ok (some n)) :
    e.enav = estNavRaw d ∧ e.enav_rate = estRateRaw d ∧
    e.rct_1month = estM1Raw d ∧ e.rct_1year = estY1Raw d ∧
    n.nav = navValRaw sd ∧ n.nav_rate = navRateRaw sd ∧
    n.rct_3month = navM3Raw sd ∧ n.rct_3year = navY3Raw sd := by
  obtain ⟨h1, _, _, _, h2, h3, h4, _⟩ := getEstnav_inv d e he
  obtain ⟨h5, _, _, h6, h7, h8, _⟩ := getNav_inv sd n hn
  exact ⟨h1, h2, h3, h4, h5, h6, h7, h8⟩

/-- Witness for C4_amended: on `doc4nav` the 3-year field equals the
red-marker-only lookup (which is `none` there). -/
theorem C4_witness : nav4.rct_3year = navY3Raw doc4nav :=
  (C4_amended doc4est doc4nav est4 nav4 rfl rfl).2.2.2.2.2.2.2

/-- C5: starting from a fresh fetcher state, the first `update()` call
performs a fetch; a second call less than the configured minimum interval
later returns immediately — no fetch, no exception, state (and hence the
Snapshot) completely unchanged — while a second call at or beyond the
interval performs a fetch again. -/
theorem C5 (st0 : EastmoneyData) (t1 t2 : Nat) (fr1 fr2 : FetchResult)
    (h0 : st0.lastCall = none) :
    (st0.update t1 fr1).2.1 = true ∧
    (t2 - t1 < st0.interval →
      ((st0.update t1 fr1).1).update t2 fr2 = ((st0.update t1 fr1).1, false, none)) ∧
    (st0.interval ≤ t2 - t1 →
      (((st0.update t1 fr1).1).update t2 fr2).2.1 = true) := by
  cases hur : updateRaw st0.fund_id st0.data fr1 with
  | ok d =>
    refine ⟨?_, ?_, ?_⟩
    · simp [EastmoneyData.update, h0, hur]
    · intro hlt
      simp [EastmoneyData.update, h0, hur, hlt]
    · intro hge
      have hnlt : ¬(t2 - t1 < st0.interval) := Nat.not_lt.mpr hge
      cases hur2 : updateRaw st0.fund_id d fr2 with
      | ok d2 => simp [EastmoneyData.update, h0, hur, hur2, hnlt]
      | error e2 => simp [EastmoneyData.update, h0, hur, hur2, hnlt]
  | error e =>
    refine ⟨?_, ?_, ?_⟩
    · simp [EastmoneyData.update, h0, hur]
    · intro hlt
      simp [EastmoneyData.update, h0, hur, hlt]
    · intro hge
      have hnlt : ¬(t2 - t1 < st0.interval) := Nat.not_lt.mpr hge
      cases hur2 : updateRaw st0.fund_id st0.data fr2 with
      | ok d2 => simp [EastmoneyData.update, h0, hur, hur2, hnlt]
      | error e2 => simp [EastmoneyData.update, h0, hur, hur2, hnlt]

/-- A fresh fetcher state for fund `000001` with a 900-second interval. -/
def st5 : EastmoneyData := ⟨"000001", none, 900, none⟩

/-- Witness for C5: a second call 10 time units after the first (interval
900) is a complete no-op. -/
theorem C5_witness :
    ((st5.update 0 FetchResult.err).1).update 10 FetchResult.err
      = ((st5.update 0 FetchResult.err).1, false, none) :=
  (C5 st5 0 10 FetchResult.err FetchResult.err rfl).2.1 (by decide)

/-- C6: with a present Snapshot whose change parses to `g`, the sensor's
trend is set to `1` when `g` is positive, `-1` when negative and `0` when
zero, with no exception; the icon maps trend `1` to the upward icon, `-1` to
the downward icon and `0` to the neutral icon; and the freshly constructed
sensor (before any successful update) shows the downward icon. -/
theorem C6 (d : FundDict) (s : SensorState) (g : Int)
    (hg : pyFloatOfOpt d.est_nav.enav_growth = Except.ok g) :
    ((sensorUpdateWith (some d) s).1).trend
        = (if 0 < g then (1 : Int) else if g < 0 then -1 else 0) ∧
    (sensorUpdateWith (some d) s).2 = none ∧
    (∀ t : SensorState,
      (t.trend = 1 → icon t = "mdi:trending-up") ∧
      (t.trend = -1 → icon t = "mdi:trending-down") ∧
      (t.trend = 0 → icon t = "mdi:trending-neutral")) ∧
    icon initSensor = "mdi:trending-down" := by
  refine ⟨?_, ?_, ?_, rfl⟩
  · simp [sensorUpdateWith, hg]
  · simp [sensorUpdateWith, hg]
  · intro t
    refine ⟨fun h => ?_, fun h => ?_, fun h => ?_⟩ <;> simp [icon, h]

/-- A Snapshot whose estimate change is `2.5` (mantissa 25). -/
def dict6 : FundDict :=
  ⟨⟨some "2023-05-09 15:00", some "1.000", some "2.5", some "2.5%", none, none⟩,
   nav3, some "2023-05-09 15:00"⟩

/-- Witness for C6 at a Snapshot with positive change. -/
theorem C6_witness :
    ((sensorUpdateWith (some dict6) initSensor).1).trend
      = (if (0 : Int) < 25 then (1 : Int) else if (25 : Int) < 0 then -1 else 0) :=
  (C6 dict6 initSensor 25 rfl).1

/-- C7: whenever the Snapshot is (re)computed — i.e. the title check passes —
the title region's text exists and the part after its first `'('` equals the
configured fund id; and on an absent title or a mismatch of that second part
the stored data is left unchanged. -/
theorem C7 (fid : String) (data : Option FundDict) (doc : Html) :
    (titlePasses fid doc = true →
      ∃ t, getFundTitText doc = some t ∧ splitFirstAfter '(' t = some fid) ∧
    ((getFundTitText doc = none ∨
        (∃ t, getFundTitText doc = some t ∧ splitFirstAfter '(' t ≠ some fid)) →
      updateRaw fid data (FetchResult.ok doc) = Except.ok data) := by
  refine ⟨titlePasses_spec fid doc, ?_⟩
  intro hmis
  by_cases hp : titlePasses fid doc = true
  · obtain ⟨t, ht, hfid⟩ := titlePasses_spec fid doc hp
    rcases hmis with hnone | ⟨t', ht', hne⟩
    · rw [ht] at hnone
      exact absurd hnone (by simp)
    · rw [ht] at ht'
      injection ht' with e1
      subst e1
      exact absurd hfid hne
  · simp only [Bool.not_eq_true] at hp
    exact updateRaw_not_pass fid data doc hp

/-- Witness for C7: on `doc1` (title `"ABC Fund(000001"`, fund id `000001`)
the check passes and the part after the first parenthesis is the id. -/
theorem C7_witness :
    ∃ t, getFundTitText doc1 = some t ∧ splitFirstAfter '(' t = some "000001" :=
  (C7 "000001" none doc1).1 rfl

/-- C8: every Snapshot `_analyze` ever constructs has the four mandatory
fields present (estimate value and time, settled value and date) and its
`last_update` equal to the estimate time; no partial Snapshot is produced. -/
theorem C8 (soup : Html) (d : FundDict) (h : analyze soup = Except.ok (some d)) :
    d.est_nav.enav ≠ none ∧ d.est_nav.enav_time ≠ none ∧
    d.nav.nav ≠ none ∧ d.nav.nav_date ≠ none ∧
    d.last_update = d.est_nav.enav_time := by
  obtain ⟨⟨d1, hest⟩, ⟨d2, hnav⟩, hlast⟩ := analyze_inv soup d h
  obtain ⟨_, _, henav, htime, _, _, _, _⟩ := getEstnav_inv d1 d.est_nav hest
  obtain ⟨_, hnv, hdate, _, _, _, _⟩ := getNav_inv d2 d.nav hnav
  exact ⟨henav, htime, hnv, hdate, hlast⟩

/-- Witness for C8 at the fully successful page `doc8`. -/
theorem C8_witness :
    snap8.est_nav.enav ≠ none ∧ snap8.est_nav.enav_time ≠ none ∧
    snap8.nav.nav ≠ none ∧ snap8.nav.nav_date ≠ none ∧
    snap8.last_update = snap8.est_nav.enav_time :=
  C8 doc8 snap8 rfl

/-- C9: `setup_platform` runs exactly one initial fetch (the first call is
never throttled); if that fetch leaves no Snapshot, setup aborts and
registers nothing; otherwise exactly one sensor wrapping the fetcher is
registered. -/
theorem C9 (fid nm : String) (interval now : Nat) (fr : FetchResult) :
    ((EastmoneyData.mk fid none interval none).update now fr).2.1 = true ∧
    (∀ st1, (EastmoneyData.mk fid none interval none).update now fr = (st1, true, none) →
      (st1.data = none → setup_platform fid nm interval now fr = Except.ok none) ∧
      (st1.data ≠ none →
        setup_platform fid nm interval now fr = Except.ok (some [⟨st1, nm⟩]))) := by
  constructor
  · cases hur : updateRaw fid none fr with
    | ok d => simp [EastmoneyData.update, hur]
    | error e => simp [EastmoneyData.update, hur]
  · intro st1 hupd
    constructor
    · intro hdata
      simp only [setup_platform]
      rw [hupd]
      simp [hdata]
    · intro hdata
      obtain ⟨d, hd⟩ := Option.ne_none_iff_exists'.mp hdata
      simp only [setup_platform]
      rw [hupd]
      simp [hd]

/-- Witness for C9: an initial fetch failing on transport leaves no
Snapshot, and setup aborts without registering anything. -/
theorem C9_witness :
    setup_platform "000001" "Fund" 900 0 FetchResult.err = Except.ok none :=
  (((C9 "000001" "Fund" 900 0 FetchResult.err).2
      ⟨"000001", none, 900, some 0⟩ rfl).1) rfl

/-- C10: on the page `doc10` — estimate headline value, time and a
non-negative change rate present, but the change element absent — a Snapshot
IS constructed with the change unset, and the subsequent sensor update
raises an uncaught `TypeError` from `float(None)` (after having already
overwritten the scalar), instead of leaving scalar and indicator unchanged. -/
theorem C10 :
    analyze doc10 = Except.ok (some snap10) ∧
    snap10.est_nav.enav = some "1.234" ∧
    snap10.est_nav.enav_time = some "2023-05-09 15:00" ∧
    snap10.est_nav.enav_rate = some "1.2%" ∧
    estRateNeg snap10.est_nav.enav_rate = Except.ok false ∧
    snap10.est_nav.enav_growth = none ∧
    sensorUpdateWith (some snap10) initSensor
      = ({ stateVal := some "1.234", trend := -1 }, some PyErr.typeError) :=
  ⟨rfl, rfl, rfl, rfl, rfl, rfl, rfl⟩
